import Mathlib

set_option maxHeartbeats 1000000

/- Shallow embedding of the request validation, normalization, and dispatch
pipeline of the openai-mcp-server repository (src/types.ts, which concatenates
the type definitions, the shared utilities, and the image-capable server, and
src/index.ts, the alternate server).  JavaScript strings are modelled as
`List Char`; Node `Buffer` values are modelled as `List Nat` with every byte
below 256.  Error messages are kept verbatim from the source. -/

/- Base64 alphabet, as used by Node `Buffer.toString("base64")` and
`Buffer.from(s, "base64")`. -/
def b64Alphabet : List Char :=
  "ABCDEFGHIJKLMNOPQRSTUVWXYZabcdefghijklmnopqrstuvwxyz0123456789+/".toList

/-- Character of a 6-bit value (standard base64 table). -/
def encChar (n : Nat) : Char := b64Alphabet.getD n 'A'

/-- Index of a character in the base64 alphabet, `none` for every other
character (including `=` and whitespace). -/
def decValChar (c : Char) : Option Nat := b64Alphabet.findIdx? (· == c)

/-- Standard base64 encoding of a byte sequence, three bytes at a time, with
`=` padding, as produced by `Buffer.prototype.toString("base64")` in
`bufferToDataURL` (src/types.ts utilities). -/
def b64EncodeChunks : List Nat → List Char
  | [] => []
  | [b1] => [encChar (b1 / 4), encChar (b1 % 4 * 16), '=', '=']
  | [b1, b2] =>
      [encChar (b1 / 4), encChar (b1 % 4 * 16 + b2 / 16), encChar (b2 % 16 * 4), '=']
  | b1 :: b2 :: b3 :: rest =>
      encChar (b1 / 4) :: encChar (b1 % 4 * 16 + b2 / 16) ::
        encChar (b2 % 16 * 4 + b3 / 64) :: encChar (b3 % 64) :: b64EncodeChunks rest

/-- Reassemble bytes from a sequence of 6-bit values, four at a time; a
trailing group of two or three sextets yields one or two bytes, a trailing
single sextet is dropped.  This matches the forgiving base64 decoder of Node. -/
def bytesOfSextets : List Nat → List Nat
  | s1 :: s2 :: s3 :: s4 :: rest =>
      (s1 * 4 + s2 / 16) :: (s2 % 16 * 16 + s3 / 4) :: (s3 % 4 * 64 + s4) ::
        bytesOfSextets rest
  | [s1, s2] => [s1 * 4 + s2 / 16]
  | [s1, s2, s3] => [s1 * 4 + s2 / 16, s2 % 16 * 16 + s3 / 4]
  | _ => []

/-- Model of Node `Buffer.from(s, "base64")`: it never throws; characters
outside the base64 alphabet (including `=` padding and whitespace) are
ignored, and the remaining sextets are reassembled into bytes.  (Documented
Node behaviour: the base64 decoder "ignores all invalid characters".) -/
def nodeB64Decode (s : List Char) : List Nat :=
  bytesOfSextets (s.filterMap decValChar)

/-- Outcome of one run of an `imageToBuffer` function: a URL input suspends
into a network fetch (out of scope here), otherwise the function returns a
byte buffer or throws with a message. -/
inductive DecodeResult where
  | fetched (url : List Char)
  | ok (bytes : List Nat)
  | error (msg : String)
deriving DecidableEq, Repr

/-- Model of `String.prototype.startsWith`. -/
def startsWithL : List Char → List Char → Bool
  | [], _ => true
  | _ :: _, [] => false
  | p :: ps, c :: cs => p == c && startsWithL ps cs

/-- Characters that the JavaScript regex `.` (without the `s` flag) refuses to
match: the four line terminators. -/
def jsLineTerminator (c : Char) : Bool :=
  c == '\n' || c == '\r' || c == '\u2028' || c == '\u2029'

/-- Character class `[a-zA-Z+]` of the data-URL regex. -/
def isSubtypeChar (c : Char) : Bool := c.isAlpha || c == '+'

/-- Model of matching `^data:image\/([a-zA-Z+]+);base64,(.+)$` against a
string (the utilities `imageToBuffer`, src/types.ts).  The subtype class
excludes `;`, so greedy matching needs no backtracking; `.` matches no line
terminator and `$` (no `m` flag) anchors at the end of the input, so the
payload is the non-empty, line-terminator-free remainder of the string. -/
def dataURLMatch (s : List Char) : Option (List Char × List Char) :=
  if startsWithL "data:image/".toList s then
    let rest := s.drop 11
    let fmt := rest.takeWhile isSubtypeChar
    if fmt.isEmpty then none
    else
      let rest2 := rest.drop fmt.length
      if startsWithL ";base64,".toList rest2 then
        let payload := rest2.drop 8
        if payload.isEmpty then none
        else if payload.any jsLineTerminator then none
        else some (fmt, payload)
      else none
  else none

/-- The utilities `imageToBuffer` (src/types.ts, utilities section): URL
inputs are fetched; `data:image...` inputs go through the data-URL regex and
the PNG-subtype check; everything else is decoded as raw base64.  The final
`try/catch` around `Buffer.from(imageData, "base64")` is modelled by the
total `nodeB64Decode`, because that call never throws on a string input. -/
def imageToBuffer (s : List Char) : DecodeResult :=
  if startsWithL "http://".toList s || startsWithL "https://".toList s then
    DecodeResult.fetched s
  else if startsWithL "data:image".toList s then
    match dataURLMatch s with
    | none => DecodeResult.error "Invalid data URL format"
    | some (fmt, payload) =>
        if fmt ≠ "png".toList then
          DecodeResult.error
            ("Unsupported image format: " ++ String.mk fmt ++ ". Only PNG is supported.")
        else
          DecodeResult.ok (nodeB64Decode payload)
  else
    DecodeResult.ok (nodeB64Decode s)

/-- The dispatcher-local `imageToBuffer` (src/types.ts, server section): for a
`data:image...` input it takes `imageData.split(",")[1]` and base64-decodes
it with no subtype check; when the string has no comma, `split(",")[1]` is
`undefined` and `Buffer.from(undefined, "base64")` throws a TypeError. -/
def imageToBufferLocal (s : List Char) : DecodeResult :=
  if startsWithL "http://".toList s || startsWithL "https://".toList s then
    DecodeResult.fetched s
  else if startsWithL "data:image".toList s then
    match (s.splitOn ',').get? 1 with
    | some b64Data => DecodeResult.ok (nodeB64Decode b64Data)
    | none =>
        DecodeResult.error
          "TypeError: The first argument must be of type string or an instance of Buffer"
  else
    DecodeResult.ok (nodeB64Decode s)

/-- Model of `bufferToDataURL` (src/types.ts utilities):
`data:<mimeType>;base64,<base64(buffer)>`. -/
def bufferToDataURL (buffer : List Nat) (mimeType : List Char) : List Char :=
  "data:".toList ++ mimeType ++ (";base64,".toList ++ b64EncodeChunks buffer)

/-- The canonical 8-byte PNG signature. -/
def pngSignature : List Nat := [0x89, 0x50, 0x4e, 0x47, 0x0d, 0x0a, 0x1a, 0x0a]

/-- Model of `validatePNGFormat` (src/types.ts utilities). -/
def validatePNGFormat (buffer : List Nat) : Bool :=
  if buffer.length < 8 then false else buffer.take 8 == pngSignature

/-- Parameters accepted by `validateDALLEParams` (src/types.ts utilities):
the model name plus the optional cross-field image parameters.  JavaScript
numbers are modelled as `Rat`. -/
structure DalleParams where
  model : String
  size : Option String
  quality : Option String
  style : Option String
  n : Option Rat
deriving DecidableEq

/-- Return shape of `validateDALLEParams`: `{ valid, errors }`. -/
structure ValidationResult where
  valid : Bool
  errors : List String
deriving DecidableEq

/-- Sizes accepted for dall-e-3. -/
def dalle3Sizes : List String := ["1024x1024", "1792x1024", "1024x1792"]

/-- Sizes accepted for dall-e-2. -/
def dalle2Sizes : List String := ["256x256", "512x512", "1024x1024"]

/-- Model of `validateDALLEParams` (src/types.ts utilities).  Each rule pushes
its message onto a single `errors` array, so every applicable violation is
collected.  JavaScript truthiness tests (`params.n && ...`, `if
(params.style)`, `params.size && ...`) are modelled as: a missing field, the
number 0, and the empty string are falsy. -/
def validateDALLEParams (params : DalleParams) : ValidationResult :=
  let errors : List String :=
    if params.model = "dall-e-3" then
      (match params.n with
        | some n => if n ≠ 0 ∧ 1 < n then ["DALL-E 3 only supports n=1"] else []
        | none => []) ++
      (match params.size with
        | some s =>
            if ¬s.isEmpty ∧ s ∉ dalle3Sizes then
              ["DALL-E 3 only supports sizes: 1024x1024, 1792x1024, 1024x1792"]
            else []
        | none => [])
    else if params.model = "dall-e-2" then
      (if params.quality = some "hd" then
        ["DALL-E 2 does not support \'hd\' quality"] else []) ++
      (match params.style with
        | some s =>
            if ¬s.isEmpty then ["DALL-E 2 does not support \'style\' parameter"] else []
        | none => []) ++
      (match params.size with
        | some s =>
            if ¬s.isEmpty ∧ s ∉ dalle2Sizes then
              ["DALL-E 2 only supports sizes: 256x256, 512x512, 1024x1024"]
            else []
        | none => [])
    else []
  { valid := errors.isEmpty, errors := errors }

/-- Arguments of `generate_image` after schema validation and defaulting
(`GenerateImageSchema.parse`, src/types.ts server section): every field is
present. -/
structure GenParams where
  prompt : String
  model : String
  n : Rat
  quality : String
  response_format : String
  size : String
  style : String
deriving DecidableEq

/-- Raw `generate_image` arguments before schema validation; the optional
`user` string carries no constraint and is omitted. -/
structure GenerateImageRawArgs where
  prompt : String
  model : Option String
  n : Option Rat
  quality : Option String
  response_format : Option String
  size : Option String
  style : Option String
deriving DecidableEq

/-- One numeric zod check `z.number().min(lo).max(hi)` on a present value.
Issue strings are already prefixed with the field path, mirroring the
dispatcher error formatting (the path joined with the zod message). -/
def zodNumIssues (field : String) (lo hi : Rat) (v : Rat) : List String :=
  (if v < lo then
    [(field ++ ":") ++ (" Number must be greater than or equal to " ++ toString lo)]
   else []) ++
  (if hi < v then
    [(field ++ ":") ++ (" Number must be less than or equal to " ++ toString hi)]
   else [])

/-- The numeric zod check on an optional field: an absent field is not
checked (the default is substituted instead). -/
def zodOptNumIssues (field : String) (lo hi : Rat) : Option Rat → List String
  | none => []
  | some v => zodNumIssues field lo hi v

/-- One enum zod check on an optional field. -/
def zodEnumIssues (field : String) (allowed : List String) : Option String → List String
  | none => []
  | some v => if v ∈ allowed then [] else [field ++ ": Invalid enum value"]

/-- Numeric bound checks of `ChatCompletionSchema` (src/types.ts server
section): temperature in [0,2], top_p in [0,1], frequency_penalty and
presence_penalty in [-2,2]. -/
def chatCompletionNumIssues (temperature top_p freq pres : Option Rat) : List String :=
  zodOptNumIssues "temperature" 0 2 temperature ++
  zodOptNumIssues "top_p" 0 1 top_p ++
  zodOptNumIssues "frequency_penalty" (-2) 2 freq ++
  zodOptNumIssues "presence_penalty" (-2) 2 pres

/-- Numeric bound checks of `ChatCompletionArgsSchema` (src/index.ts): the
same four bounds as the server in src/types.ts. -/
def chatCompletionArgsNumIssues (temperature top_p freq pres : Option Rat) : List String :=
  zodOptNumIssues "temperature" 0 2 temperature ++
  zodOptNumIssues "top_p" 0 1 top_p ++
  zodOptNumIssues "frequency_penalty" (-2) 2 freq ++
  zodOptNumIssues "presence_penalty" (-2) 2 pres

/-- Image count bound of `GenerateImageSchema`: `z.number().min(1).max(10)`. -/
def generateImageNIssues (n : Option Rat) : List String := zodOptNumIssues "n" 1 10 n

/-- Image count bound of `EditImageSchema`: `z.number().min(1).max(10)`. -/
def editImageNIssues (n : Option Rat) : List String := zodOptNumIssues "n" 1 10 n

/-- Image count bound of `CreateImageVariationSchema`:
`z.number().min(1).max(10)`. -/
def createImageVariationNIssues (n : Option Rat) : List String := zodOptNumIssues "n" 1 10 n

/-- Role enum of the `messages` items of `ChatCompletionSchema`
(src/types.ts server section). -/
def chatCompletionSchemaRoles : List String :=
  ["system", "user", "assistant", "function", "tool"]

/-- Role enum of the `messages` items of `ChatCompletionArgsSchema`
(src/index.ts). -/
def chatCompletionArgsSchemaRoles : List String := ["system", "user", "assistant"]

/-- A raw chat message object: role, string content, optional name. -/
structure RawChatMessage where
  role : String
  content : String
  name : Option String
deriving DecidableEq

/-- Zod enum check for the message role (issue text abbreviated; the claims
only depend on acceptance or rejection). -/
def zodRoleIssues (allowed : List String) (role : String) : List String :=
  if role ∈ allowed then [] else ["role: Invalid enum value"]

/-- Validation of one message object by `ChatCompletionSchema` (src/types.ts
server section): the role must be in the five-value enum; `content` is any
string and `name` any optional string, so they produce no issues. -/
def chatCompletionMessageIssues (m : RawChatMessage) : List String :=
  zodRoleIssues chatCompletionSchemaRoles m.role

/-- Validation of one message object by `ChatCompletionArgsSchema`
(src/index.ts): the role must be in the three-value enum. -/
def chatCompletionArgsMessageIssues (m : RawChatMessage) : List String :=
  zodRoleIssues chatCompletionArgsSchemaRoles m.role

/-- All sizes of the `GenerateImageSchema` size enum. -/
def generateImageSizes : List String :=
  ["256x256", "512x512", "1024x1024", "1792x1024", "1024x1792"]

/-- Schema issues of `GenerateImageSchema` for the modelled fields: prompt
length at most 4000, model/quality/response_format/size/style enums, and the
n bound. -/
def generateImageIssues (raw : GenerateImageRawArgs) : List String :=
  (if 4000 < raw.prompt.length then
    ["prompt: String must contain at most 4000 character(s)"] else []) ++
  zodEnumIssues "model" ["dall-e-2", "dall-e-3"] raw.model ++
  generateImageNIssues raw.n ++
  zodEnumIssues "quality" ["standard", "hd"] raw.quality ++
  zodEnumIssues "response_format" ["url", "b64_json"] raw.response_format ++
  zodEnumIssues "size" generateImageSizes raw.size ++
  zodEnumIssues "style" ["vivid", "natural"] raw.style

/-- `GenerateImageSchema.parse`: if no issue arises, every absent optional
field receives its declared default (model dall-e-3, n 1, quality standard,
response_format url, size 1024x1024, style vivid). -/
def generateImageParse (raw : GenerateImageRawArgs) : Except (List String) GenParams :=
  let issues := generateImageIssues raw
  if issues.isEmpty then
    Except.ok
      { prompt := raw.prompt
        model := raw.model.getD "dall-e-3"
        n := raw.n.getD 1
        quality := raw.quality.getD "standard"
        response_format := raw.response_format.getD "url"
        size := raw.size.getD "1024x1024"
        style := raw.style.getD "vivid" }
  else Except.error issues

/-- The inline model-specific checks of the `generate_image` case of the
dispatcher (src/types.ts server section).  Each violated rule `throw`s
immediately, so only the first violation in source order is ever reported.
The guards mirror the source: the dall-e-3 block checks n then size, the
dall-e-2 block checks quality, then style (a truthiness test, and the parsed
style is never the empty string), then size. -/
def generateImageDispatchCheck (params : GenParams) : Except String Unit :=
  if params.model = "dall-e-3" ∧ params.n ≠ 0 ∧ 1 < params.n then
    Except.error "DALL-E 3 only supports n=1"
  else if params.model = "dall-e-3" ∧ ¬params.size.isEmpty ∧ params.size ∉ dalle3Sizes then
    Except.error "DALL-E 3 only supports sizes: 1024x1024, 1792x1024, 1024x1792"
  else if params.model = "dall-e-2" ∧ params.quality = "hd" then
    Except.error "DALL-E 2 does not support \'hd\' quality"
  else if params.model = "dall-e-2" ∧ ¬params.style.isEmpty then
    Except.error "DALL-E 2 does not support \'style\' parameter"
  else if params.model = "dall-e-2" ∧ ¬params.size.isEmpty ∧ params.size ∉ dalle2Sizes then
    Except.error "DALL-E 2 only supports sizes: 256x256, 512x512, 1024x1024"
  else Except.ok ()

/-- Raw `edit_image` arguments (model is fixed to dall-e-2 by its one-value
enum with default; the optional `user` field carries no constraint). -/
structure EditImageRawArgs where
  image : String
  mask : Option String
  prompt : String
  n : Option Rat
  size : Option String
  response_format : Option String
deriving DecidableEq

/-- Schema issues of `EditImageSchema` for the modelled fields. -/
def editImageIssues (raw : EditImageRawArgs) : List String :=
  (if 4000 < raw.prompt.length then
    ["prompt: String must contain at most 4000 character(s)"] else []) ++
  editImageNIssues raw.n ++
  zodEnumIssues "size" dalle2Sizes raw.size ++
  zodEnumIssues "response_format" ["url", "b64_json"] raw.response_format

/-- Joined string, mirroring `errors.map(...).join(", ")`. -/
def joinComma : List String → String
  | [] => ""
  | [s] => s
  | s :: rest => s ++ ", " ++ joinComma rest

/-- Outcome of dispatching `edit_image` up to (and excluding) the upstream
call: a schema failure, a thrown decoding error, a pending URL fetch, or the
upstream `openai.images.edit` call with the decoded payload(s). -/
inductive EditOutcome where
  | invalidParams (msg : String)
  | thrown (msg : String)
  | fetchNeeded (url : List Char)
  | upstreamCall (imageBytes : List Nat) (maskBytes : Option (List Nat))
deriving DecidableEq

/-- The `edit_image` case of the dispatcher (src/types.ts server section):
schema validation, then the dispatcher-local `imageToBuffer` on `image` and,
when present, on `mask`; with both buffers in hand the upstream edit call is
made.  No PNG or format check happens on this path. -/
def editImageDispatch (raw : EditImageRawArgs) : EditOutcome :=
  let issues := editImageIssues raw
  if issues.isEmpty then
    match imageToBufferLocal raw.image.toList with
    | DecodeResult.fetched u => EditOutcome.fetchNeeded u
    | DecodeResult.error m => EditOutcome.thrown m
    | DecodeResult.ok imageBytes =>
        match raw.mask with
        | none => EditOutcome.upstreamCall imageBytes none
        | some mk =>
            match imageToBufferLocal mk.toList with
            | DecodeResult.fetched u => EditOutcome.fetchNeeded u
            | DecodeResult.error m => EditOutcome.thrown m
            | DecodeResult.ok maskBytes => EditOutcome.upstreamCall imageBytes (some maskBytes)
  else EditOutcome.invalidParams ("Invalid input parameters: " ++ joinComma issues)

/-- The error taxonomy of the specification (section 7). -/
inductive ErrorKind where
  | invalidParams
  | upstreamError
  | unknownTool
  | internalError
deriving DecidableEq

/-- An exception reaching a catch block: a zod validation error, an
`OpenAI.APIError` with its HTTP status and message, or anything else. -/
inductive ThrownError where
  | zodError (issues : List String)
  | apiError (status : Nat) (message : String)
  | other (message : String)
deriving DecidableEq

/-- The `message` property of the thrown value (for an `APIError` the
upstream message text; the status is a separate property). -/
def errMessage : ThrownError → String
  | ThrownError.zodError issues => joinComma issues
  | ThrownError.apiError _ m => m
  | ThrownError.other m => m

/-- The catch block of the dispatcher in src/types.ts (server section):
zod errors become the InvalidParams diagnostic, `OpenAI.APIError` becomes
the prefixed upstream diagnostic carrying status and message, anything else
is rethrown unchanged (InternalError of the taxonomy). -/
def fullServerCatch : ThrownError → ErrorKind × String
  | ThrownError.zodError issues =>
      (ErrorKind.invalidParams, "Invalid input parameters: " ++ joinComma issues)
  | ThrownError.apiError status msg =>
      (ErrorKind.upstreamError, "OpenAI API error (" ++ toString status ++ "): " ++ msg)
  | ThrownError.other m => (ErrorKind.internalError, m)

/-- The inner catch of the `chat_completion` case in src/index.ts: every
error thrown by the upstream call is wrapped as
`McpError(ErrorCode.InternalError, "OpenAI API error: " + error.message)`;
the status code is not included. -/
def indexChatCompletionCatch (e : ThrownError) : ErrorKind × String :=
  (ErrorKind.internalError, "OpenAI API error: " ++ errMessage e)

/-- An issue list names a field when some issue message starts with the
field path followed by a colon. -/
def namesField (field : String) (issues : List String) : Prop :=
  ∃ m ∈ issues, (field ++ ":").toList.isPrefixOf m.toList

/-- A bounded numeric field check behaves per the spec: both bounds
validate, and every value strictly outside yields an issue naming the
field. -/
def boundOkAt (check : Option Rat → List String) (field : String) (lo hi : Rat) : Prop :=
  check (some lo) = [] ∧ check (some hi) = [] ∧
    ∀ v : Rat, v < lo ∨ hi < v → namesField field (check (some v))

theorem decValChar_encChar {n : Nat} (h : n < 64) : decValChar (encChar n) = some n := by
  have h64 : ∀ m, m < 64 → decValChar (encChar m) = some m := by decide
  exact h64 n h

theorem decValChar_pad : decValChar '=' = none := by decide

/-- Decoding after encoding is the identity on byte sequences. -/
theorem b64_roundtrip : ∀ bs : List Nat, (∀ b ∈ bs, b < 256) →
    nodeB64Decode (b64EncodeChunks bs) = bs
  | [], _ => rfl
  | [b1], h => by
      have hb1 : b1 < 256 := h b1 (by simp)
      show bytesOfSextets (List.filterMap decValChar (b64EncodeChunks [b1])) = [b1]
      rw [show b64EncodeChunks [b1]
        = [encChar (b1 / 4), encChar (b1 % 4 * 16), '=', '='] from rfl]
      simp only [List.filterMap_cons, decValChar_encChar (show b1 / 4 < 64 by omega),
        decValChar_encChar (show b1 % 4 * 16 < 64 by omega), decValChar_pad,
        List.filterMap_nil]
      simp only [bytesOfSextets, List.cons.injEq, and_true]
      omega
  | [b1, b2], h => by
      have hb1 : b1 < 256 := h b1 (by simp)
      have hb2 : b2 < 256 := h b2 (by simp)
      show bytesOfSextets (List.filterMap decValChar (b64EncodeChunks [b1, b2])) = [b1, b2]
      rw [show b64EncodeChunks [b1, b2]
        = [encChar (b1 / 4), encChar (b1 % 4 * 16 + b2 / 16), encChar (b2 % 16 * 4), '=']
        from rfl]
      simp only [List.filterMap_cons, decValChar_encChar (show b1 / 4 < 64 by omega),
        decValChar_encChar (show b1 % 4 * 16 + b2 / 16 < 64 by omega),
        decValChar_encChar (show b2 % 16 * 4 < 64 by omega), decValChar_pad,
        List.filterMap_nil]
      simp only [bytesOfSextets, List.cons.injEq, and_true]
      exact ⟨by omega, by omega⟩
  | b1 :: b2 :: b3 :: rest, h => by
      have hb1 : b1 < 256 := h b1 (by simp)
      have hb2 : b2 < 256 := h b2 (by simp)
      have hb3 : b3 < 256 := h b3 (by simp)
      have ih := b64_roundtrip rest (fun b hb => h b (by simp [hb]))
      show bytesOfSextets
        (List.filterMap decValChar (b64EncodeChunks (b1 :: b2 :: b3 :: rest)))
        = b1 :: b2 :: b3 :: rest
      rw [show b64EncodeChunks (b1 :: b2 :: b3 :: rest)
        = encChar (b1 / 4) :: encChar (b1 % 4 * 16 + b2 / 16) ::
            encChar (b2 % 16 * 4 + b3 / 64) :: encChar (b3 % 64) :: b64EncodeChunks rest
        from rfl]
      simp only [List.filterMap_cons, decValChar_encChar (show b1 / 4 < 64 by omega),
        decValChar_encChar (show b1 % 4 * 16 + b2 / 16 < 64 by omega),
        decValChar_encChar (show b2 % 16 * 4 + b3 / 64 < 64 by omega),
        decValChar_encChar (show b3 % 64 < 64 by omega)]
      simp only [bytesOfSextets, List.cons.injEq]
      exact ⟨by omega, by omega, by omega, ih⟩

theorem b64EncodeChunks_ne_nil : ∀ bs : List Nat, bs ≠ [] → b64EncodeChunks bs ≠ []
  | [], h => absurd rfl h
  | [_], _ => by simp [b64EncodeChunks]
  | [_, _], _ => by simp [b64EncodeChunks]
  | _ :: _ :: _ :: _, _ => by simp [b64EncodeChunks]

theorem encChar_not_lineTerm (n : Nat) : jsLineTerminator (encChar n) = false := by
  rcases Nat.lt_or_ge n 64 with h | h
  · have h64 : ∀ m, m < 64 → jsLineTerminator (encChar m) = false := by decide
    exact h64 n h
  · have hlen : b64Alphabet.length ≤ n := by
      have h64 : b64Alphabet.length = 64 := by decide
      omega
    unfold encChar
    rw [List.getD_eq_default _ _ hlen]
    decide

theorem jsLineTerminator_pad : jsLineTerminator '=' = false := by decide

theorem b64EncodeChunks_no_lineTerm : ∀ bs : List Nat,
    (b64EncodeChunks bs).any jsLineTerminator = false
  | [] => rfl
  | [b1] => by
      simp [b64EncodeChunks, encChar_not_lineTerm, jsLineTerminator_pad]
  | [b1, b2] => by
      simp [b64EncodeChunks, encChar_not_lineTerm, jsLineTerminator_pad]
  | b1 :: b2 :: b3 :: rest => by
      simp only [b64EncodeChunks, List.any_cons, encChar_not_lineTerm,
        Bool.false_or]
      exact b64EncodeChunks_no_lineTerm rest

theorem dataURLMatch_png (enc : List Char) :
    dataURLMatch ("data:image/png;base64,".toList ++ enc)
      = if enc.isEmpty then none
        else if enc.any jsLineTerminator then none
        else some ("png".toList, enc) := rfl

theorem imageToBuffer_dataURL_png (enc : List Char) (h1 : enc ≠ [])
    (h2 : enc.any jsLineTerminator = false) :
    imageToBuffer ("data:image/png;base64,".toList ++ enc)
      = DecodeResult.ok (nodeB64Decode enc) := by
  have hne : enc.isEmpty = false := by
    simpa using h1
  have hstep : imageToBuffer ("data:image/png;base64,".toList ++ enc)
      = match dataURLMatch ("data:image/png;base64,".toList ++ enc) with
        | none => DecodeResult.error "Invalid data URL format"
        | some (fmt, payload) =>
            if fmt ≠ "png".toList then
              DecodeResult.error
                ("Unsupported image format: " ++ String.mk fmt ++ ". Only PNG is supported.")
            else DecodeResult.ok (nodeB64Decode payload) := rfl
  rw [hstep, dataURLMatch_png, hne, h2]
  simp

/-- C6: for every non-empty byte sequence, decoding the data URL built by
`bufferToDataURL` with the image decoder `imageToBuffer` returns exactly the
original bytes. -/
theorem imageToBuffer_bufferToDataURL_roundtrip (bs : List Nat) (hne : bs ≠ [])
    (hbytes : ∀ b ∈ bs, b < 256) :
    imageToBuffer (bufferToDataURL bs "image/png".toList) = DecodeResult.ok bs := by
  have hbd : bufferToDataURL bs "image/png".toList
      = "data:image/png;base64,".toList ++ b64EncodeChunks bs := rfl
  rw [hbd, imageToBuffer_dataURL_png _ (b64EncodeChunks_ne_nil bs hne)
    (b64EncodeChunks_no_lineTerm bs), b64_roundtrip bs hbytes]

/-- Witness for C6 at the PNG-signature head bytes. -/
theorem imageToBuffer_roundtrip_witness :
    imageToBuffer (bufferToDataURL [137, 80, 78, 71] "image/png".toList)
      = DecodeResult.ok [137, 80, 78, 71] :=
  imageToBuffer_bufferToDataURL_roundtrip [137, 80, 78, 71] (by decide) (by decide)

/-- C8: `validatePNGFormat` is true exactly when the first 8 bytes equal the
canonical PNG signature, and is false on every buffer shorter than 8
bytes. -/
theorem validatePNGFormat_signature (buffer : List Nat) :
    (validatePNGFormat buffer = true ↔ buffer.take 8 = pngSignature) ∧
    (buffer.length < 8 → validatePNGFormat buffer = false) := by
  constructor
  · by_cases h : buffer.length < 8
    · rw [validatePNGFormat, if_pos h]
      constructor
      · intro hff
        exact absurd hff (by simp)
      · intro htake
        have hlen := congrArg List.length htake
        rw [List.length_take] at hlen
        have hsig : pngSignature.length = 8 := rfl
        omega
    · rw [validatePNGFormat, if_neg h]
      exact beq_iff_eq
  · intro h
    rw [validatePNGFormat, if_pos h]

/-- Witness for C8: a two-byte buffer is rejected, the exact signature is
accepted. -/
theorem validatePNGFormat_witness :
    validatePNGFormat [137, 80] = false
      ∧ validatePNGFormat [137, 80, 78, 71, 13, 10, 26, 10] = true :=
  ⟨(validatePNGFormat_signature [137, 80]).2 (by decide),
   (validatePNGFormat_signature [137, 80, 78, 71, 13, 10, 26, 10]).1.mpr (by decide)⟩

/-- C1: the exact rule table of `validateDALLEParams` on the five quoted
inputs: dall-e-3 with n=2 errors mentioning n=1; dall-e-3 with size 512x512
errors on size; dall-e-2 with quality hd errors on quality; dall-e-2 with
style vivid errors on style; dall-e-3 with n=1, size 1024x1024, quality hd,
style natural passes. -/
theorem validateDALLEParams_ruleTable :
    ((validateDALLEParams ⟨"dall-e-3", none, none, none, some 2⟩).errors
        = ["DALL-E 3 only supports n=1"]
      ∧ "n=1".toList.IsInfix "DALL-E 3 only supports n=1".toList)
    ∧ (validateDALLEParams ⟨"dall-e-3", some "512x512", none, none, none⟩).errors
        = ["DALL-E 3 only supports sizes: 1024x1024, 1792x1024, 1024x1792"]
    ∧ (validateDALLEParams ⟨"dall-e-2", none, some "hd", none, none⟩).errors
        = ["DALL-E 2 does not support \'hd\' quality"]
    ∧ (validateDALLEParams ⟨"dall-e-2", none, none, some "vivid", none⟩).errors
        = ["DALL-E 2 does not support \'style\' parameter"]
    ∧ (validateDALLEParams
        ⟨"dall-e-3", some "1024x1024", some "hd", some "natural", some 1⟩).errors = []
    ∧ (validateDALLEParams
        ⟨"dall-e-3", some "1024x1024", some "hd", some "natural", some 1⟩).valid = true := by
  decide

theorem toList_isPrefixOf_append (p rest : String) :
    p.toList.isPrefixOf ((p ++ rest).toList) = true := by
  rw [List.isPrefixOf_iff_prefix]
  show p.data <+: p.data ++ rest.data
  exact List.prefix_append _ _

theorem zodOpt_boundOk (field : String) (lo hi : Rat) (h : lo ≤ hi) :
    boundOkAt (zodOptNumIssues field lo hi) field lo hi := by
  refine ⟨?_, ?_, ?_⟩
  · show zodNumIssues field lo hi lo = []
    unfold zodNumIssues
    rw [if_neg (lt_irrefl lo), if_neg (not_lt.mpr h)]
    rfl
  · show zodNumIssues field lo hi hi = []
    unfold zodNumIssues
    rw [if_neg (not_lt.mpr h), if_neg (lt_irrefl hi)]
    rfl
  · intro v hv
    show namesField field (zodNumIssues field lo hi v)
    unfold zodNumIssues namesField
    rcases hv with hv | hv
    · rw [if_pos hv, if_neg (not_lt.mpr (le_of_lt (lt_of_lt_of_le hv h)))]
      exact ⟨_, by simp, toList_isPrefixOf_append (field ++ ":")
        (" Number must be greater than or equal to " ++ toString lo)⟩
    · rw [if_neg (not_lt.mpr (le_of_lt (lt_of_le_of_lt h hv))), if_pos hv]
      exact ⟨_, by simp, toList_isPrefixOf_append (field ++ ":")
        (" Number must be less than or equal to " ++ toString hi)⟩

theorem boundOkAt_of_eq {f g : Option Rat → List String} {field : String} {lo hi : Rat}
    (hfg : ∀ x, f x = g x) (h : boundOkAt g field lo hi) : boundOkAt f field lo hi := by
  obtain ⟨h1, h2, h3⟩ := h
  refine ⟨(hfg _).trans h1, (hfg _).trans h2, ?_⟩
  intro v hv
  rw [show f (some v) = g (some v) from hfg _]
  exact h3 v hv

/-- C5: every numeric field with declared bounds validates both bounds and
rejects every strictly outside value with an issue naming the field, in both
chat schemas (temperature [0,2], top_p [0,1], frequency and presence
penalties [-2,2]) and the three image schemas (n in [1,10]). -/
theorem numericBounds_ok :
    boundOkAt (fun t => chatCompletionNumIssues t none none none) "temperature" 0 2
    ∧ boundOkAt (fun t => chatCompletionNumIssues none t none none) "top_p" 0 1
    ∧ boundOkAt (fun t => chatCompletionNumIssues none none t none) "frequency_penalty" (-2) 2
    ∧ boundOkAt (fun t => chatCompletionNumIssues none none none t) "presence_penalty" (-2) 2
    ∧ boundOkAt (fun t => chatCompletionArgsNumIssues t none none none) "temperature" 0 2
    ∧ boundOkAt (fun t => chatCompletionArgsNumIssues none t none none) "top_p" 0 1
    ∧ boundOkAt (fun t => chatCompletionArgsNumIssues none none t none) "frequency_penalty" (-2) 2
    ∧ boundOkAt (fun t => chatCompletionArgsNumIssues none none none t) "presence_penalty" (-2) 2
    ∧ boundOkAt generateImageNIssues "n" 1 10
    ∧ boundOkAt editImageNIssues "n" 1 10
    ∧ boundOkAt createImageVariationNIssues "n" 1 10 := by
  refine ⟨?_, ?_, ?_, ?_, ?_, ?_, ?_, ?_, ?_, ?_, ?_⟩
  · exact boundOkAt_of_eq
      (fun x => by cases x <;> simp [chatCompletionNumIssues, zodOptNumIssues, zodNumIssues])
      (zodOpt_boundOk _ _ _ (by norm_num))
  · exact boundOkAt_of_eq
      (fun x => by cases x <;> simp [chatCompletionNumIssues, zodOptNumIssues, zodNumIssues])
      (zodOpt_boundOk _ _ _ (by norm_num))
  · exact boundOkAt_of_eq
      (fun x => by cases x <;> simp [chatCompletionNumIssues, zodOptNumIssues, zodNumIssues])
      (zodOpt_boundOk _ _ _ (by norm_num))
  · exact boundOkAt_of_eq
      (fun x => by cases x <;> simp [chatCompletionNumIssues, zodOptNumIssues, zodNumIssues])
      (zodOpt_boundOk _ _ _ (by norm_num))
  · exact boundOkAt_of_eq
      (fun x => by cases x <;> simp [chatCompletionArgsNumIssues, zodOptNumIssues, zodNumIssues])
      (zodOpt_boundOk _ _ _ (by norm_num))
  · exact boundOkAt_of_eq
      (fun x => by cases x <;> simp [chatCompletionArgsNumIssues, zodOptNumIssues, zodNumIssues])
      (zodOpt_boundOk _ _ _ (by norm_num))
  · exact boundOkAt_of_eq
      (fun x => by cases x <;> simp [chatCompletionArgsNumIssues, zodOptNumIssues, zodNumIssues])
      (zodOpt_boundOk _ _ _ (by norm_num))
  · exact boundOkAt_of_eq
      (fun x => by cases x <;> simp [chatCompletionArgsNumIssues, zodOptNumIssues, zodNumIssues])
      (zodOpt_boundOk _ _ _ (by norm_num))
  · exact boundOkAt_of_eq
      (fun x => by cases x <;> simp [generateImageNIssues, zodOptNumIssues, zodNumIssues])
      (zodOpt_boundOk _ _ _ (by norm_num))
  · exact boundOkAt_of_eq
      (fun x => by cases x <;> simp [editImageNIssues, zodOptNumIssues, zodNumIssues])
      (zodOpt_boundOk _ _ _ (by norm_num))
  · exact boundOkAt_of_eq
      (fun x => by cases x <;> simp [createImageVariationNIssues, zodOptNumIssues, zodNumIssues])
      (zodOpt_boundOk _ _ _ (by norm_num))

/-- Witness for C5: temperature 3 is rejected by name, temperature 0
accepted; n=11 rejected by name, n=10 accepted. -/
theorem numericBounds_witness :
    namesField "temperature" (chatCompletionNumIssues (some 3) none none none)
    ∧ chatCompletionNumIssues (some 0) none none none = []
    ∧ namesField "n" (generateImageNIssues (some 11))
    ∧ generateImageNIssues (some 10) = [] := by
  obtain ⟨hT, _, _, _, _, _, _, _, hN, _, _⟩ := numericBounds_ok
  obtain ⟨hT1, hT2, hT3⟩ := hT
  obtain ⟨hN1, hN2, hN3⟩ := hN
  exact ⟨hT3 3 (Or.inr (by norm_num)), hT1, hN3 11 (Or.inr (by norm_num)), hN2⟩

/-- Schema-validated generate_image arguments violating three dall-e-2 rules
at once: quality hd, style present, size 1792x1024. -/
def c2Params : GenParams :=
  { prompt := "a cat", model := "dall-e-2", n := 1, quality := "hd",
    response_format := "url", size := "1792x1024", style := "vivid" }

/-- C2 counterexample: on arguments violating three dall-e-2 rules, the
constraint check run by dispatch reports only the first violation (the
quality rule); its message mentions neither style nor the size, although the
collecting validator finds three violations on the same arguments. -/
theorem generateImageDispatch_first_only :
    generateImageDispatchCheck c2Params
        = Except.error "DALL-E 2 does not support \'hd\' quality"
    ∧ ¬ "style".toList.IsInfix "DALL-E 2 does not support \'hd\' quality".toList
    ∧ ¬ "1792x1024".toList.IsInfix "DALL-E 2 does not support \'hd\' quality".toList
    ∧ (validateDALLEParams
        ⟨"dall-e-2", some "1792x1024", some "hd", some "vivid", some 1⟩).errors.length = 3 := by
  refine ⟨rfl, by decide, by decide, by decide⟩

/-- The dall-e-2 branch of `validateDALLEParams` reduced at the literal
model name. -/
theorem validateDALLEParams_d2_errors (size quality style : Option String) (n : Option Rat) :
    (validateDALLEParams ⟨"dall-e-2", size, quality, style, n⟩).errors
      = (if quality = some "hd" then
          ["DALL-E 2 does not support \'hd\' quality"] else []) ++
        (match style with
          | some s =>
              if ¬s.isEmpty then ["DALL-E 2 does not support \'style\' parameter"] else []
          | none => []) ++
        (match size with
          | some s =>
              if ¬s.isEmpty ∧ s ∉ dalle2Sizes then
                ["DALL-E 2 only supports sizes: 256x256, 512x512, 1024x1024"]
              else []
          | none => []) := rfl

/-- The dall-e-3 branch of `validateDALLEParams` reduced at the literal
model name. -/
theorem validateDALLEParams_d3_errors (size quality style : Option String) (n : Option Rat) :
    (validateDALLEParams ⟨"dall-e-3", size, quality, style, n⟩).errors
      = (match n with
          | some v => if v ≠ 0 ∧ 1 < v then ["DALL-E 3 only supports n=1"] else []
          | none => []) ++
        (match size with
          | some s =>
              if ¬s.isEmpty ∧ s ∉ dalle3Sizes then
                ["DALL-E 3 only supports sizes: 1024x1024, 1792x1024, 1024x1792"]
              else []
          | none => []) := rfl

/-- C2 amended: the collecting validator `validateDALLEParams` reports every
violated model-specific rule together in one errors list, on both the
dall-e-2 branch (quality, style, size) and the dall-e-3 branch (n, size);
only the inline check run by dispatch stops at the first violation. -/
theorem validateDALLEParams_collects_all (size quality style : Option String) (n : Option Rat) :
    (quality = some "hd" →
      "DALL-E 2 does not support \'hd\' quality"
        ∈ (validateDALLEParams ⟨"dall-e-2", size, quality, style, n⟩).errors)
    ∧ (∀ s, style = some s → s.isEmpty = false →
      "DALL-E 2 does not support \'style\' parameter"
        ∈ (validateDALLEParams ⟨"dall-e-2", size, quality, style, n⟩).errors)
    ∧ (∀ s, size = some s → s.isEmpty = false → s ∉ dalle2Sizes →
      "DALL-E 2 only supports sizes: 256x256, 512x512, 1024x1024"
        ∈ (validateDALLEParams ⟨"dall-e-2", size, quality, style, n⟩).errors)
    ∧ (∀ v, n = some v → v ≠ 0 → 1 < v →
      "DALL-E 3 only supports n=1"
        ∈ (validateDALLEParams ⟨"dall-e-3", size, quality, style, n⟩).errors)
    ∧ (∀ s, size = some s → s.isEmpty = false → s ∉ dalle3Sizes →
      "DALL-E 3 only supports sizes: 1024x1024, 1792x1024, 1024x1792"
        ∈ (validateDALLEParams ⟨"dall-e-3", size, quality, style, n⟩).errors) := by
  refine ⟨?_, ?_, ?_, ?_, ?_⟩
  · intro hq
    rw [validateDALLEParams_d2_errors, hq]
    simp
  · intro s hs hse
    rw [validateDALLEParams_d2_errors]
    subst hs
    simp [hse]
  · intro s hs hse hsn
    rw [validateDALLEParams_d2_errors]
    subst hs
    simp [hse, hsn]
  · intro v hv hne hgt
    rw [validateDALLEParams_d3_errors]
    subst hv
    simp [hne, hgt]
  · intro s hs hse hsn
    rw [validateDALLEParams_d3_errors]
    subst hs
    simp [hse, hsn]

/-- Witness for C2 amended: all three dall-e-2 rule messages appear together
on the triple-violation input, and both dall-e-3 rule messages appear
together on the double-violation input n=2 with size 512x512. -/
theorem validateDALLEParams_collects_all_witness :
    "DALL-E 2 does not support \'hd\' quality"
      ∈ (validateDALLEParams
          ⟨"dall-e-2", some "1792x1024", some "hd", some "vivid", some 1⟩).errors
    ∧ "DALL-E 2 does not support \'style\' parameter"
      ∈ (validateDALLEParams
          ⟨"dall-e-2", some "1792x1024", some "hd", some "vivid", some 1⟩).errors
    ∧ "DALL-E 2 only supports sizes: 256x256, 512x512, 1024x1024"
      ∈ (validateDALLEParams
          ⟨"dall-e-2", some "1792x1024", some "hd", some "vivid", some 1⟩).errors
    ∧ "DALL-E 3 only supports n=1"
      ∈ (validateDALLEParams
          ⟨"dall-e-3", some "512x512", none, none, some 2⟩).errors
    ∧ "DALL-E 3 only supports sizes: 1024x1024, 1792x1024, 1024x1792"
      ∈ (validateDALLEParams
          ⟨"dall-e-3", some "512x512", none, none, some 2⟩).errors := by
  obtain ⟨h1, h2, h3, _, _⟩ :=
    validateDALLEParams_collects_all (some "1792x1024") (some "hd") (some "vivid") (some 1)
  obtain ⟨_, _, _, h4, h5⟩ :=
    validateDALLEParams_collects_all (some "512x512") none none (some 2)
  exact ⟨h1 rfl, h2 "vivid" rfl (by decide), h3 "1792x1024" rfl (by decide) (by decide),
    h4 2 rfl (by norm_num) (by norm_num), h5 "512x512" rfl (by decide) (by decide)⟩

/-- The edit_image invocation of end-to-end scenario C: a jpeg data URL and
a valid prompt. -/
def c3EditArgs : EditImageRawArgs :=
  { image := "data:image/jpeg;base64,AAAA", mask := none, prompt := "x",
    n := none, size := none, response_format := none }

/-- C3: dispatching edit_image with a jpeg data URL reaches the upstream
edit call with the silently decoded bytes, because the dispatcher-local
decoder never checks the subtype; the tested utilities decoder on the same
input throws the unsupported-format error that the claim (and the spec)
expects from dispatch. -/
theorem editImage_jpeg_reaches_upstream :
    editImageDispatch c3EditArgs = EditOutcome.upstreamCall [0, 0, 0] none
    ∧ imageToBuffer "data:image/jpeg;base64,AAAA".toList
        = DecodeResult.error "Unsupported image format: jpeg. Only PNG is supported." := by
  exact ⟨by decide, by decide⟩

/-- C4 counterexample: in src/index.ts the chat_completion handler wraps an
upstream APIError (status 429) as InternalError, and its message drops the
status code entirely. -/
theorem indexChat_upstream_internalError :
    (indexChatCompletionCatch (ThrownError.apiError 429 "Rate limit exceeded")).1
        = ErrorKind.internalError
    ∧ (indexChatCompletionCatch (ThrownError.apiError 429 "Rate limit exceeded")).2
        = "OpenAI API error: Rate limit exceeded"
    ∧ ¬ "429".toList.IsInfix "OpenAI API error: Rate limit exceeded".toList := by
  refine ⟨rfl, rfl, by decide⟩

/-- C4 amended: the server in src/types.ts surfaces an upstream APIError as
UpstreamError carrying the status and the upstream message verbatim behind a
fixed prefix (the message stays a suffix of the diagnostic); the alternate
server in src/index.ts instead reclassifies it as InternalError. -/
theorem fullServerCatch_upstream (status : Nat) (msg : String) :
    fullServerCatch (ThrownError.apiError status msg)
      = (ErrorKind.upstreamError,
          ("OpenAI API error (" ++ toString status ++ "): ") ++ msg)
    ∧ msg.toList.IsSuffix (fullServerCatch (ThrownError.apiError status msg)).2.toList
    ∧ (indexChatCompletionCatch (ThrownError.apiError status msg)).1
        = ErrorKind.internalError := by
  refine ⟨rfl, ?_, rfl⟩
  show msg.data <:+ ("OpenAI API error (" ++ toString status ++ "): ").data ++ msg.data
  exact List.suffix_append _ _

/-- C7: the raw-base64 branch of the image decoder never fails; characters
outside the base64 alphabet are silently ignored by `Buffer.from`, so a
fully invalid string yields an empty buffer and a partially invalid string
decodes as if the invalid characters were deleted. -/
theorem imageToBuffer_raw_never_fails :
    imageToBuffer "!!!".toList = DecodeResult.ok []
    ∧ imageToBuffer "ab!cd".toList = DecodeResult.ok (nodeB64Decode "abcd".toList)
    ∧ nodeB64Decode "abcd".toList = [105, 183, 29] := by
  refine ⟨by decide, by decide, by decide⟩

/-- C9 counterexample: the chat_completion schema of src/index.ts rejects
the role "function" as an enum violation. -/
theorem indexChat_role_function_rejected :
    chatCompletionArgsMessageIssues ⟨"function", "hi", none⟩
      = ["role: Invalid enum value"] := by
  decide

/-- C9 amended: the ChatCompletionSchema of src/types.ts accepts all five
roles including function and tool; the ChatCompletionArgsSchema of
src/index.ts accepts only system, user and assistant, and rejects tool (and
function, per the counterexample) as enum violations. -/
theorem chat_roles_accepted :
    chatCompletionMessageIssues ⟨"system", "hi", none⟩ = []
    ∧ chatCompletionMessageIssues ⟨"user", "hi", none⟩ = []
    ∧ chatCompletionMessageIssues ⟨"assistant", "hi", none⟩ = []
    ∧ chatCompletionMessageIssues ⟨"function", "hi", none⟩ = []
    ∧ chatCompletionMessageIssues ⟨"tool", "hi", none⟩ = []
    ∧ chatCompletionArgsMessageIssues ⟨"system", "hi", none⟩ = []
    ∧ chatCompletionArgsMessageIssues ⟨"user", "hi", none⟩ = []
    ∧ chatCompletionArgsMessageIssues ⟨"assistant", "hi", none⟩ = []
    ∧ chatCompletionArgsMessageIssues ⟨"tool", "hi", none⟩
        = ["role: Invalid enum value"] := by
  decide

/-- Raw generate_image arguments selecting dall-e-2, omitting style but
supplying quality hd. -/
def c10CounterRaw : GenerateImageRawArgs :=
  { prompt := "a cat", model := some "dall-e-2", n := none, quality := some "hd",
    response_format := none, size := none, style := none }

/-- The parse of `c10CounterRaw` after defaulting. -/
def c10CounterParams : GenParams :=
  { prompt := "a cat", model := "dall-e-2", n := 1, quality := "hd",
    response_format := "url", size := "1024x1024", style := "vivid" }

/-- C10 counterexample: a dall-e-2 invocation omitting style but supplying
quality hd is rejected with the quality error, not the style error the claim
names. -/
theorem generateImage_d2_hd_quality_first :
    generateImageParse c10CounterRaw = Except.ok c10CounterParams
    ∧ generateImageDispatchCheck c10CounterParams
        = Except.error "DALL-E 2 does not support \'hd\' quality"
    ∧ "DALL-E 2 does not support \'hd\' quality"
        ≠ "DALL-E 2 does not support \'style\' parameter" := by
  refine ⟨rfl, rfl, by decide⟩

/-- C10 amended: for every dall-e-2 generate_image invocation that omits
style and passes schema validation, defaulting substitutes style vivid and
the dispatch constraint check rejects the call (with the style error
whenever quality is not hd, otherwise with the quality error thrown first),
so no such call ever reaches the upstream API. -/
theorem generateImage_d2_omitted_style_rejected (raw : GenerateImageRawArgs)
    (hm : raw.model = some "dall-e-2") (hs : raw.style = none) (p : GenParams)
    (hp : generateImageParse raw = Except.ok p) :
    p.style = "vivid"
    ∧ generateImageDispatchCheck p ≠ Except.ok ()
    ∧ (p.quality ≠ "hd" →
        generateImageDispatchCheck p
          = Except.error "DALL-E 2 does not support \'style\' parameter") := by
  simp only [generateImageParse] at hp
  split at hp
  case isFalse => exact absurd hp (by simp)
  case isTrue =>
    injection hp with hp'
    have hstyle : p.style = "vivid" := by
      rw [← hp']
      show raw.style.getD "vivid" = "vivid"
      rw [hs]
      rfl
    have hmodel : p.model = "dall-e-2" := by
      rw [← hp']
      show raw.model.getD "dall-e-3" = "dall-e-2"
      rw [hm]
      rfl
    have h3 : p.model ≠ "dall-e-3" := by
      rw [hmodel]
      decide
    have hchk : generateImageDispatchCheck p
        = (if p.quality = "hd" then
            Except.error "DALL-E 2 does not support \'hd\' quality"
          else Except.error "DALL-E 2 does not support \'style\' parameter") := by
      unfold generateImageDispatchCheck
      rw [if_neg (fun hc => h3 hc.1), if_neg (fun hc => h3 hc.1)]
      by_cases hq : p.quality = "hd"
      · rw [if_pos ⟨hmodel, hq⟩, if_pos hq]
      · rw [if_neg (fun hc => hq hc.2), if_pos ⟨hmodel, by rw [hstyle]; decide⟩,
          if_neg hq]
    refine ⟨hstyle, ?_, ?_⟩
    · rw [hchk]
      split <;> simp
    · intro hq
      rw [hchk, if_neg hq]

/-- Raw generate_image arguments selecting dall-e-2 and omitting both style
and quality. -/
def c10WitnessRaw : GenerateImageRawArgs :=
  { prompt := "a cat", model := some "dall-e-2", n := none, quality := none,
    response_format := none, size := none, style := none }

/-- The parse of `c10WitnessRaw` after defaulting. -/
def c10WitnessParams : GenParams :=
  { prompt := "a cat", model := "dall-e-2", n := 1, quality := "standard",
    response_format := "url", size := "1024x1024", style := "vivid" }

/-- Witness for C10 amended at a concrete dall-e-2 invocation omitting
style. -/
theorem generateImage_d2_omitted_style_witness :
    generateImageDispatchCheck c10WitnessParams
      = Except.error "DALL-E 2 does not support \'style\' parameter" :=
  (generateImage_d2_omitted_style_rejected c10WitnessRaw rfl rfl
    c10WitnessParams rfl).2.2 (by decide)
